import Mathlib

/-!
Verification development for the NetworkedPortentaIOC repository.

The repository is an EPICS IOC gateway that mirrors the I/O state of an
Arduino Portenta Machine Control over a line-oriented TCP text protocol
(`GET <BUS> <PIN>\n` / `SET <BUS> <PIN> <VALUE>\n`).  The definitions below
are a shallow embedding of the pure request-building, response-decoding,
value-coercion, cache-update and endpoint-validation logic of the three
source files `NetworkedPortentaIOC.py` (called v1 below),
`NetworkedPortentaIOC_v2.py` (v2) and `NetworkedPortentaIOC_old.py`.
Python strings are modelled as Lean `String`/`List Char`; fallible Python
code (code that can raise) is modelled with `Except`; Python `float` values
are modelled as `ℚ`.
-/

/-- The six ASCII whitespace characters recognised by Python's `str.strip()`
and no-argument `str.split()` (space, tab, newline, carriage return,
vertical tab, form feed).  Unicode whitespace is not modelled; no theorem
below depends on non-ASCII whitespace. -/
def pyIsWs (c : Char) : Bool :=
  c == ' ' || c == '\t' || c == '\n' || c == '\r' || c == '\x0b' || c == '\x0c'

/-- Python `str.strip()` on the character-list representation: drop leading
and trailing whitespace. -/
def stripL (cs : List Char) : List Char :=
  ((cs.dropWhile pyIsWs).reverse.dropWhile pyIsWs).reverse

/-- Python `str.strip()`. -/
def pyStrip (s : String) : String :=
  String.mk (stripL s.toList)

/-- Accumulator-style tokenizer implementing Python's no-argument
`str.split()`: maximal runs of non-whitespace characters, with no empty
tokens.  `acc` holds the (reversed) characters of the token currently being
read. -/
def wsTokensAux : List Char → List Char → List (List Char)
  | [], acc => if acc.isEmpty then [] else [acc.reverse]
  | c :: cs, acc =>
    if pyIsWs c then
      if acc.isEmpty then wsTokensAux cs [] else acc.reverse :: wsTokensAux cs []
    else
      wsTokensAux cs (c :: acc)

/-- Python `str.split()` (no separator argument) on character lists. -/
def wsTokensL (cs : List Char) : List (List Char) :=
  wsTokensAux cs []

/-- Python `str.split()` (no separator argument). -/
def wsTokens (s : String) : List String :=
  (wsTokensL s.toList).map String.mk

/-- Accumulator-style splitter implementing Python's `str.split(sep)` for a
single-character separator: splits at every occurrence of `sep`, keeping
empty fields, so the result is always non-empty. -/
def splitChAux (sep : Char) : List Char → List Char → List (List Char)
  | [], acc => [acc.reverse]
  | c :: cs, acc =>
    if c == sep then acc.reverse :: splitChAux sep cs []
    else splitChAux sep cs (c :: acc)

/-- Python `str.split(sep)` for a one-character separator, on character
lists. -/
def splitChL (sep : Char) (cs : List Char) : List (List Char) :=
  splitChAux sep cs []

/-- Value of a (decimal) digit list, most significant first. -/
def decVal (cs : List Char) : Nat :=
  cs.foldl (fun a c => a * 10 + (c.toNat - 48)) 0

/-- Unsigned mantissa of a Python float literal: `D+`, `D+.D*` or `.D+`,
returning the parsed value together with the unconsumed remainder. -/
def parseUnsignedFloat (cs : List Char) : Option (ℚ × List Char) :=
  let intPart := cs.takeWhile Char.isDigit
  let rest1 := cs.dropWhile Char.isDigit
  match rest1 with
  | '.' :: rest2 =>
    let fracPart := rest2.takeWhile Char.isDigit
    let rest3 := rest2.dropWhile Char.isDigit
    if intPart.isEmpty && fracPart.isEmpty then none
    else some ((decVal intPart : ℚ) + (decVal fracPart : ℚ) / (10 : ℚ) ^ fracPart.length, rest3)
  | _ => if intPart.isEmpty then none else some ((decVal intPart : ℚ), rest1)

/-- Apply a decimal exponent (the digits after `e`/`E` and an optional
sign) to a mantissa; fails unless the remainder is one or more digits. -/
def applyExpDigits (m : ℚ) (neg : Bool) (ds : List Char) : Option ℚ :=
  if ds.isEmpty || !ds.all Char.isDigit then none
  else some (if neg then m / (10 : ℚ) ^ decVal ds else m * (10 : ℚ) ^ decVal ds)

/-- Exponent suffix of a Python float literal (everything after `e`/`E`). -/
def parseAfterE (m : ℚ) : List Char → Option ℚ
  | '+' :: r => applyExpDigits m false r
  | '-' :: r => applyExpDigits m true r
  | r => applyExpDigits m false r

/-- Mantissa followed by an optional exponent; the whole input must be
consumed. -/
def parseMantissaExp (cs : List Char) : Option ℚ :=
  match parseUnsignedFloat cs with
  | none => none
  | some (m, rest) =>
    match rest with
    | [] => some m
    | 'e' :: r2 => parseAfterE m r2
    | 'E' :: r2 => parseAfterE m r2
    | _ => none

/-- Model of Python's `float(str)` constructor on the inputs relevant here:
surrounding whitespace is stripped, then an optional sign, a decimal
mantissa and an optional decimal exponent are parsed; any other input is
rejected (`none` models a raised `ValueError`).  The `inf`/`nan` literals
and underscore digit separators accepted by CPython are not modelled; no
theorem below depends on them. -/
def pyFloat (s : String) : Option ℚ :=
  match stripL s.toList with
  | '+' :: r => parseMantissaExp r
  | '-' :: r => (parseMantissaExp r).map Neg.neg
  | r => parseMantissaExp r

/-- Python exceptions that the embedded fragments can raise, plus the
transport-level errors of the socket layer.  A `DecodeError` constructor is
deliberately absent: no such classification exists anywhere in the source. -/
inductive PyErr
  | valueError (msg : String)
  | indexError
  | socketTimeout
  | connectionRefused
  | osError
deriving DecidableEq

/-- Source v1 `portenta_read` (NetworkedPortentaIOC.py lines 36-41): the
received text is stripped, split on single spaces
(`message_received.strip().split(' ')`), and the final field is returned
as a raw string with no numeric parsing.  Python's `split(' ')` always
yields a non-empty list, so the `[-1]` indexing cannot fail; `getLastD`
mirrors that. -/
def portenta_read_value (resp : String) : String :=
  String.mk ((splitChL ' ' (stripL resp.toList)).getLastD [])

/-- Source v2 `PortentaClient.read` decode step (NetworkedPortentaIOC_v2.py
line 44): `float(response.strip().split()[-1])`.  `[-1]` on the empty list
raises `IndexError`; `float` on a non-numeric token raises `ValueError`. -/
def PortentaClient.read_decode (resp : String) : Except PyErr ℚ :=
  match (wsTokensL (stripL resp.toList)).getLast? with
  | none => Except.error PyErr.indexError
  | some tok =>
    match pyFloat (String.mk tok) with
    | none => Except.error (PyErr.valueError "could not convert string to float")
    | some q => Except.ok q

/-- Spec-side definition, following the spec's words for decoding a GET
response: "the value is the last whitespace-separated token, parsed as a
floating-point number". -/
def specDecodeGET (line : String) : Option ℚ :=
  ((wsTokensL line.toList).getLast?).bind (fun tok => pyFloat (String.mk tok))

/-- Result of v1 `portenta_write`'s acknowledgment handling: the log line it
prints and the value it returns to its caller. -/
structure WriteFinish where
  logLine : String
  result : Except PyErr Unit

/-- Source v1 `portenta_write` acknowledgment handling
(NetworkedPortentaIOC.py lines 57-61): on `message_received != "OK"` it
prints "Unexpected response received: ..." and on `"OK"` it prints
"Expected message received: ..."; in both cases the function simply returns
(`None` in Python), raising nothing. -/
def portenta_write_finish (resp : String) : WriteFinish :=
  if resp ≠ "OK" then
    { logLine := "Unexpected response received: " ++ resp, result := Except.ok () }
  else
    { logLine := "Expected message received: " ++ resp, result := Except.ok () }

/-- Source v2 `PortentaClient.write` acknowledgment handling
(NetworkedPortentaIOC_v2.py lines 54-55): `if response != "OK": raise
ValueError(f"Unexpected response: {response}")`. -/
def PortentaClient.write_finish (resp : String) : Except PyErr Unit :=
  if resp ≠ "OK" then Except.error (PyErr.valueError ("Unexpected response: " ++ resp))
  else Except.ok ()

/-- Timeout configured on the sockets built by v1 `connection()`
(NetworkedPortentaIOC.py lines 64-67) and v2 `PortentaClient._connect`
(NetworkedPortentaIOC_v2.py lines 34-37): both call
`socket.socket(socket.AF_INET, socket.SOCK_STREAM)` and `connect`, and
`settimeout` is never called anywhere in the source, so every socket stays
in the default blocking mode (`None` timeout). -/
def connection_timeout : Option ℚ := none

/-- Possible outcomes of waiting for a controller reply on a socket. -/
inductive RecvOutcome
  | received (line : String)
  | timedOut
  | blocksForever
deriving DecidableEq

/-- Model of the Python socket library's `recv` semantics (the external
transport, not repository code): if the peer sends a reply it is received;
if the peer never sends and a timeout is set, `socket.timeout` is raised
when it expires; if the peer never sends and the socket is in blocking mode
(timeout `none`), `recv` blocks forever. -/
def recvFrom (timeout : Option ℚ) (reply : Option String) : RecvOutcome :=
  match reply with
  | some line => RecvOutcome.received line
  | none =>
    match timeout with
    | some _ => RecvOutcome.timedOut
    | none => RecvOutcome.blocksForever

/-- An event observed by the controller: a request line arriving, or a
response line being sent back, tagged with the id of the client task that
performed the exchange. -/
inductive LinkEvent
  | req (tid : Nat) (line : String)
  | resp (tid : Nat) (line : String)
deriving DecidableEq

/-- The controller-visible events of one exchange by task `tid`: its request
followed by the controller's reply.  In the source an entire exchange
(`connect`, `sendall`, `recv`, close) is performed with synchronous blocking
socket calls containing no `await`, inside callbacks run by caproto's
single-threaded cooperative event loop; the whole exchange is therefore one
atomic scheduling block — the event loop cannot switch to another task in
the middle of it. -/
def exchangeEvents (tid : Nat) (request reply : String) : List LinkEvent :=
  [LinkEvent.req tid request, LinkEvent.resp tid reply]

/-- Cooperative interleaving of two tasks, each given as a list of atomic
blocks of events: at every step the scheduler runs the next whole block of
one task.  `Interleaving xs ys t` means trace `t` is a possible
controller-observed event sequence when tasks with pending blocks `xs` and
`ys` run to completion. -/
inductive Interleaving : List (List LinkEvent) → List (List LinkEvent) → List LinkEvent → Prop
  | nil : Interleaving [] [] []
  | left (b : List LinkEvent) {xs ys t} :
      Interleaving xs ys t → Interleaving (b :: xs) ys (b ++ t)
  | right (b : List LinkEvent) {xs ys t} :
      Interleaving xs ys t → Interleaving xs (b :: ys) (b ++ t)

/-- ASCII lowercasing of one character, as Python `str.lower()` acts on the
ASCII inputs relevant here (Unicode case mapping is not modelled; no
theorem below depends on non-ASCII letters). -/
def pyCharLower (c : Char) : Char :=
  if 'A' ≤ c ∧ c ≤ 'Z' then Char.ofNat (c.toNat + 32) else c

/-- Python `str.lower()` on the modelled (ASCII) alphabet. -/
def pyLower (s : String) : String :=
  String.mk (s.toList.map pyCharLower)

/-- Source v2 `PortentaClient.write` string coercion
(NetworkedPortentaIOC_v2.py lines 47-48):
`value = 1 if value.lower() in {'on', '1', 'true'} else 0`. -/
def coerce_str_v2 (s : String) : Nat :=
  if pyLower s = "on" ∨ pyLower s = "1" ∨ pyLower s = "true" then 1 else 0

/-- Source v1 `portenta_write` string coercion (NetworkedPortentaIOC.py
lines 48-50): `value = 1 if value in ['On', 'ON', 'on', '1', 'True',
'true'] else 0` — a case-sensitive literal list, not a lowercased match. -/
def coerce_str_v1 (s : String) : Nat :=
  if s = "On" ∨ s = "ON" ∨ s = "on" ∨ s = "1" ∨ s = "True" ∨ s = "true" then 1 else 0

/-- Python values that can reach the write path.  `write`'s own annotation
is `int | float | str`, but the v2 putters are annotated
`async def do0(self, instance, value: bool)` and forward `value` untouched,
so Python booleans are also in the input domain.  Floats (analog channels)
are omitted because no claim below depends on Python float formatting. -/
inductive PyVal
  | pint (n : Int)
  | pbool (b : Bool)
  | pstr (s : String)
deriving DecidableEq

/-- Python `str()` / f-string rendering of the modelled values: integers in
decimal, booleans as `True`/`False` (a Python `bool` is not a `str`, so the
`isinstance(value, str)` coercion does not fire on it, and f-string
formatting prints `True`/`False`). -/
def pyStr : PyVal → String
  | PyVal.pint n => toString n
  | PyVal.pbool b => if b then "True" else "False"
  | PyVal.pstr s => s

/-- Source v2 `PortentaClient.write` lines 47-48: only values that are
`str` instances are coerced (to the int 1 or 0); every other value passes
through unchanged. -/
def coerceWriteValue (v : PyVal) : PyVal :=
  match v with
  | PyVal.pstr s => PyVal.pint (Int.ofNat (coerce_str_v2 s))
  | v => v

/-- Source v2 `PortentaClient.write` line 49 (identically v1
`portenta_write` line 51): `message = f"SET {bus} {pin} {value}\n"` built
after the string coercion. -/
def buildSetMessage (bus : String) (pin : Nat) (v : PyVal) : String :=
  "SET " ++ bus ++ " " ++ toString pin ++ " " ++ pyStr (coerceWriteValue v) ++ "\n"

/-- Name of the readback PV `f"{base}{p}_RBV"` targeted by
`getattr(self, ...)` in v1 `update_pin_status`. -/
def rbvName (base : String) (p : Nat) : String :=
  base ++ toString p ++ "_RBV"

/-- Source v1 `PortentaIOC.update_pin_status` (NetworkedPortentaIOC.py
lines 230-242), as the ordered list of (PV name, written value) pairs it
performs against a controller `ctrl` mapping (bus, pin) to the response
line.  Transcribed exactly as written, including its slips: the DI loop
writes `do{DIPort}_RBV`, the AI loop (range(3)) writes `do{AIPort}_RBV`,
and the DIO loop calls `portenta_read(..., "DIO", DIPort)` where `DIPort`
is the stale DI loop variable, equal to 7 after that loop. -/
def update_pin_status_writes (ctrl : String → Nat → String) : List (String × String) :=
  ((List.range 8).map fun p => (rbvName "do" p, portenta_read_value (ctrl "DO" p))) ++
  ((List.range 8).map fun p => (rbvName "do" p, portenta_read_value (ctrl "DI" p))) ++
  ((List.range 3).map fun p => (rbvName "do" p, portenta_read_value (ctrl "AI" p))) ++
  ((List.range 8).map fun p => (rbvName "dio" p, portenta_read_value (ctrl "DIO" 7)))

/-- Cached value of a PV after a sequence of writes is applied in order:
the value of the last write targeting that name, if any. -/
def cacheAfter (ws : List (String × String)) (name : String) : Option String :=
  (ws.reverse.find? (fun w => w.1 == name)).map (fun w => w.2)

/-- Stub controller for the round-trip scenario: `GET DO 3` answers "1"
(the acknowledged write), `GET DIO 7` answers "9", every other poll answers
"0". -/
def c4_stub_controller : String → Nat → String :=
  fun bus pin =>
    if bus == "DO" && pin == 3 then "1"
    else if bus == "DIO" && pin == 7 then "9"
    else "0"

/-- Base-8 digit predicate. -/
def isOctDigit (c : Char) : Bool := '0' ≤ c && c ≤ '7'

/-- Value of an octal digit list, most significant first. -/
def octVal (cs : List Char) : Nat :=
  cs.foldl (fun a c => a * 8 + (c.toNat - 48)) 0

/-- Base-16 digit predicate. -/
def isHexDigitCh (c : Char) : Bool :=
  c.isDigit || ('a' ≤ c && c ≤ 'f') || ('A' ≤ c && c ≤ 'F')

/-- Numeric value of one hexadecimal digit. -/
def hexDigitVal (c : Char) : Nat :=
  if c.isDigit then c.toNat - 48
  else if 'a' ≤ c && c ≤ 'f' then c.toNat - 87
  else c.toNat - 55

/-- Value of a hexadecimal digit list, most significant first. -/
def hexVal (cs : List Char) : Nat :=
  cs.foldl (fun a c => a * 16 + hexDigitVal c) 0

/-- Parse a non-empty all-decimal-digit field. -/
def parseDec (cs : List Char) : Option Nat :=
  if !cs.isEmpty && cs.all Char.isDigit then some (decVal cs) else none

/-- Parse a non-empty all-octal-digit field (a field with an `8` or `9`
after a leading `0` is rejected, as C's `inet_aton` rejects it). -/
def parseOct (cs : List Char) : Option Nat :=
  if !cs.isEmpty && cs.all isOctDigit then some (octVal cs) else none

/-- Parse a non-empty all-hexadecimal-digit field. -/
def parseHexPart (cs : List Char) : Option Nat :=
  if !cs.isEmpty && cs.all isHexDigitCh then some (hexVal cs) else none

/-- One dot-separated field of an `inet_aton` address string (as a
character list), with the C numeric-literal bases: `0x`/`0X` prefix means
hexadecimal, a leading `0` means octal, otherwise decimal.  (Trailing
whitespace tolerance and strtoul overflow wrap-around of C `inet_aton` are
not modelled; no theorem below depends on them.)  This function handles a
field whose leading `0` has already been consumed. -/
def parsePartLeadingZero : List Char → Option Nat
  | [] => some 0
  | 'x' :: hs => parseHexPart hs
  | 'X' :: hs => parseHexPart hs
  | rest => parseOct rest

/-- Dispatch on the first character: a field starting `0` uses the
octal/hexadecimal rules above, anything else is decimal. -/
def parsePart : List Char → Option Nat
  | [] => none
  | c :: rest => if c = '0' then parsePartLeadingZero rest else parseDec (c :: rest)

/-- The arity-dependent range checks of C `inet_aton`: `a` (one field,
below 2^32), `a.b` (a below 2^8, b below 2^24), `a.b.c` (a, b below 2^8, c
below 2^16) and the dotted quad `a.b.c.d` (each field below 2^8). -/
def atonCheck : List (List Char) → Bool
  | [p1] =>
    match parsePart p1 with
    | some a => decide (a < 4294967296)
    | none => false
  | [p1, p2] =>
    match parsePart p1, parsePart p2 with
    | some a, some b => decide (a < 256) && decide (b < 16777216)
    | _, _ => false
  | [p1, p2, p3] =>
    match parsePart p1, parsePart p2, parsePart p3 with
    | some a, some b, some c => decide (a < 256) && decide (b < 256) && decide (c < 65536)
    | _, _, _ => false
  | [p1, p2, p3, p4] =>
    match parsePart p1, parsePart p2, parsePart p3, parsePart p4 with
    | some a, some b, some c, some d =>
      decide (a < 256) && decide (b < 256) && decide (c < 256) && decide (d < 256)
    | _, _, _, _ => false
  | _ => false

/-- Model of Python `socket.inet_aton` (the library routine called by the
source's `validate_ip_address`): the string is split on dots and accepted
under the C legacy numeric address grammar, which admits 1 to 4 fields —
not only dotted quads. -/
def inet_aton_ok (s : String) : Bool :=
  atonCheck (splitChL '.' s.toList)

/-- One decimal octet of a standard dotted-quad IPv4 address: non-empty,
all decimal digits, no leading zero (except "0" itself), value at most
255. -/
def isDecOctet (cs : List Char) : Bool :=
  !cs.isEmpty && cs.all Char.isDigit &&
    (cs.length == 1 || cs.head? != some '0') && decide (decVal cs ≤ 255)

/-- Spec-side definition, following the claim's words: a valid dotted IPv4
address is exactly four dot-separated decimal octets. -/
def isDottedIPv4 (s : String) : Bool :=
  let parts := splitChL '.' s.toList
  parts.length == 4 && parts.all isDecOctet

/-- Source `validate_ip_address` (identical in all three files): accept
exactly when `socket.inet_aton(value)` does not raise, else raise
`ValueError(f"Invalid IP address: {value}")`. -/
def validate_ip_address (value : String) : Except String Unit :=
  if inet_aton_ok value then Except.ok ()
  else Except.error ("Invalid IP address: " ++ value)

/-- Source `validate_port_number` (identical in all three files): accept
exactly when `0 <= value <= 65535`, else raise `ValueError`. -/
def validate_port_number (value : Int) : Except String Unit :=
  if 0 ≤ value ∧ value ≤ 65535 then Except.ok ()
  else Except.error "Port number must be between 0 and 65535"

/-- The endpoint configuration stored on a constructed `PortentaIOC`. -/
structure PortentaIOCConfig where
  host : String
  port : Int
deriving DecidableEq

/-- Construction-time endpoint validation of `PortentaIOC` (attrs fields at
NetworkedPortentaIOC.py lines 75-78 / NetworkedPortentaIOC_v2.py lines
61-62): the `host` field runs `validate_ip_address` and the `port` field
runs `validate_port_number` (each after its `str`/`int` converter, so the
inputs here are the already-converted values); the first failing validator
aborts construction with its `ValueError`, otherwise the given values are
stored unchanged. -/
def mkPortentaIOC (host : String) (port : Int) : Except String PortentaIOCConfig :=
  match validate_ip_address host, validate_port_number port with
  | Except.ok _, Except.ok _ => Except.ok { host := host, port := port }
  | Except.error e, _ => Except.error e
  | Except.ok _, Except.error e => Except.error e

/-- Helper: leading whitespace does not change whitespace tokenization. -/
theorem wsTokensAux_dropWhile (cs : List Char) :
    wsTokensAux (cs.dropWhile pyIsWs) [] = wsTokensAux cs [] := by
  induction cs with
  | nil => rfl
  | cons c cs ih =>
    rw [List.dropWhile_cons]
    by_cases h : pyIsWs c = true
    · rw [if_pos h, ih]
      show _ = wsTokensAux (c :: cs) []
      rw [wsTokensAux, if_pos h]
      rfl
    · rw [if_neg h]

/-- Helper: on all-whitespace input the tokenizer only flushes its
accumulator. -/
theorem wsTokensAux_allWs (tr : List Char) (h : ∀ c ∈ tr, pyIsWs c = true) (acc : List Char) :
    wsTokensAux tr acc = if acc.isEmpty then [] else [acc.reverse] := by
  induction tr generalizing acc with
  | nil => rfl
  | cons c tr ih =>
    have hc : pyIsWs c = true := h c (by simp)
    have htr : ∀ x ∈ tr, pyIsWs x = true := fun x hx => h x (by simp [hx])
    rw [wsTokensAux, if_pos hc]
    by_cases ha : acc.isEmpty = true
    · rw [if_pos ha, if_pos ha, ih htr]; rfl
    · rw [if_neg ha, if_neg ha, ih htr]; rfl

/-- Helper: trailing whitespace does not change whitespace tokenization. -/
theorem wsTokensAux_append_allWs (cs tr : List Char) (h : ∀ c ∈ tr, pyIsWs c = true)
    (acc : List Char) : wsTokensAux (cs ++ tr) acc = wsTokensAux cs acc := by
  induction cs generalizing acc with
  | nil =>
    rw [List.nil_append, wsTokensAux_allWs tr h acc]
    rfl
  | cons c cs ih =>
    rw [List.cons_append]
    rw [wsTokensAux, wsTokensAux]
    by_cases hc : pyIsWs c = true
    · rw [if_pos hc, if_pos hc]
      by_cases ha : acc.isEmpty = true
      · rw [if_pos ha, if_pos ha, ih]
      · rw [if_neg ha, if_neg ha, ih]
    · rw [if_neg hc, if_neg hc, ih]

/-- Helper: dropping leading whitespace leaves the stripped list plus an
all-whitespace tail. -/
theorem stripL_trailing (cs : List Char) :
    ∃ tr, cs.dropWhile pyIsWs = stripL cs ++ tr ∧ ∀ c ∈ tr, pyIsWs c = true := by
  refine ⟨((cs.dropWhile pyIsWs).reverse.takeWhile pyIsWs).reverse, ?_, ?_⟩
  · show cs.dropWhile pyIsWs =
      ((cs.dropWhile pyIsWs).reverse.dropWhile pyIsWs).reverse ++
        ((cs.dropWhile pyIsWs).reverse.takeWhile pyIsWs).reverse
    rw [← List.reverse_append, List.takeWhile_append_dropWhile, List.reverse_reverse]
  · intro c hc
    exact List.mem_takeWhile_imp (List.mem_reverse.mp hc)

/-- Helper: `str.strip()` before a no-argument `str.split()` is the
identity on the token list. -/
theorem wsTokensL_stripL (cs : List Char) : wsTokensL (stripL cs) = wsTokensL cs := by
  obtain ⟨tr, heq, hws⟩ := stripL_trailing cs
  show wsTokensAux (stripL cs) [] = wsTokensAux cs []
  rw [← wsTokensAux_append_allWs (stripL cs) tr hws [], ← heq, wsTokensAux_dropWhile]

/-- Claim C1: two operations (one poll exchange by task 0, one write
exchange by task 1) issued concurrently against the Device Link are
observed by the controller as two fully separated, non-interleaved
request/response pairs.  In the source each exchange is performed by
synchronous blocking socket calls with no `await` inside, under a
single-threaded cooperative event loop; the event loop is the single
serialization point, so each exchange is one atomic scheduling block, and
every cooperative interleaving of the two tasks yields one whole exchange
followed by the other. -/
theorem deviceLink_exchanges_serialized (greq grep wreq wrep : String) (t : List LinkEvent)
    (h : Interleaving [exchangeEvents 0 greq grep] [exchangeEvents 1 wreq wrep] t) :
    t = exchangeEvents 0 greq grep ++ exchangeEvents 1 wreq wrep ∨
      t = exchangeEvents 1 wreq wrep ++ exchangeEvents 0 greq grep := by
  cases h with
  | left b h1 =>
    cases h1 with
    | right b2 h2 => cases h2; left; simp
  | right b h1 =>
    cases h1 with
    | left b2 h2 => cases h2; right; simp

/-- Witness for C1: a concrete schedule of a `GET DO 3` poll and a
`SET DO 3 1` write, run through the theorem. -/
theorem deviceLink_exchanges_serialized_witness :
    exchangeEvents 0 "GET DO 3" "1" ++ (exchangeEvents 1 "SET DO 3 1" "OK" ++ ([] : List LinkEvent)) =
        exchangeEvents 0 "GET DO 3" "1" ++ exchangeEvents 1 "SET DO 3 1" "OK" ∨
      exchangeEvents 0 "GET DO 3" "1" ++ (exchangeEvents 1 "SET DO 3 1" "OK" ++ ([] : List LinkEvent)) =
        exchangeEvents 1 "SET DO 3 1" "OK" ++ exchangeEvents 0 "GET DO 3" "1" :=
  deviceLink_exchanges_serialized "GET DO 3" "1" "SET DO 3 1" "OK" _
    (Interleaving.left _ (Interleaving.right _ Interleaving.nil))

/-- Claim C2 (code bug, evaluated at the failing input): the claim says
every exchange carries an explicit bounded timeout and yields a
`TimeoutError` against a controller that never responds; but the source
never calls `settimeout`, so its sockets are blocking (`connection_timeout
= none`) and a `recv` against a silent controller blocks forever instead of
timing out. -/
theorem blocking_socket_never_times_out :
    recvFrom connection_timeout none = RecvOutcome.blocksForever := rfl

/-- Claim C3 (code bug, evaluated at the failing input): the claim says a
write whose acknowledgment is not "OK" surfaces the failure synchronously
and never returns silently; but v1 `portenta_write`, on receiving "ERR",
merely logs the mismatch and returns normally (`Except.ok ()`), so its
caller observes success. -/
theorem v1_write_swallows_bad_ack :
    (portenta_write_finish "ERR").result = Except.ok () ∧
      (portenta_write_finish "ERR").logLine = "Unexpected response received: ERR" := by
  constructor <;> rfl

/-- Claim C4 (code bug, evaluated at the failing input): the claim says
each successful poll stores the value read from a channel's own bus and
pin into that same channel's readback cache, so after `GET DO 3` returns
"1" the cached `do3_RBV` should be "1".  Running v1 `update_pin_status`
against the stub controller: the DO-3 poll does return "1" (third
conjunct), yet `do3_RBV` ends up holding "0" — the value of DI pin 3,
because the DI loop writes into `do{n}_RBV` — and `dio0_RBV` ends up
holding "9", the value of DIO pin 7, because the DIO loop reads the stale
loop variable `DIPort` (= 7) for every DIO channel. -/
theorem update_pin_status_misroutes_readbacks :
    cacheAfter (update_pin_status_writes c4_stub_controller) (rbvName "do" 3) = some "0" ∧
      cacheAfter (update_pin_status_writes c4_stub_controller) (rbvName "dio" 0) = some "9" ∧
      portenta_read_value (c4_stub_controller "DO" 3) = "1" := by
  refine ⟨by decide, by decide, rfl⟩

/-- Claim C5: decoding a SET acknowledgment reports success iff the
received text is exactly "OK", and any other received text raises the
protocol-level `ValueError` ("Unexpected response: ..."), which is an
acknowledgment mismatch, not one of the transport errors. -/
theorem write_ack_success_iff_ok (r : String) :
    (PortentaClient.write_finish r = Except.ok () ↔ r = "OK") ∧
      (r ≠ "OK" → PortentaClient.write_finish r =
        Except.error (PyErr.valueError ("Unexpected response: " ++ r))) := by
  unfold PortentaClient.write_finish
  by_cases h : r = "OK" <;> simp [h]

/-- Witness for C5: the mismatch branch evaluated at the concrete
response "FAIL". -/
theorem write_ack_success_iff_ok_witness :
    PortentaClient.write_finish "FAIL" =
      Except.error (PyErr.valueError ("Unexpected response: " ++ "FAIL")) :=
  (write_ack_success_iff_ok "FAIL").2 (by decide)

/-- Counterexample for claim C6: on the response line "5\t7" (tab
separator) the v1 decoder returns the single-space-separated field
"5\t7" — not the last whitespace-separated token "7", and not parseable as
a float — while the spec-side decode of the same line is 7.  So "the
decoded value equals the last whitespace-separated token of the line
parsed as a floating-point number" is false of v1 `portenta_read`. -/
theorem v1_read_decode_tab_counterexample :
    portenta_read_value "5\t7" = "5\t7" ∧ specDecodeGET "5\t7" = some 7 ∧
      pyFloat (portenta_read_value "5\t7") = none := by
  refine ⟨rfl, by decide, rfl⟩

/-- Claim C6 (amended): the v2 decoder `PortentaClient.read` satisfies the
claim exactly — for every response line it succeeds with value `q` iff the
last whitespace-separated token of the line exists and parses as a float
with value `q` (the spec-side `specDecodeGET`). -/
theorem v2_read_decode_matches_spec (line : String) (q : ℚ) :
    PortentaClient.read_decode line = Except.ok q ↔ specDecodeGET line = some q := by
  unfold PortentaClient.read_decode specDecodeGET
  rw [wsTokensL_stripL]
  cases h : (wsTokensL line.toList).getLast? with
  | none => simp
  | some tok => cases hf : pyFloat (String.mk tok) <;> simp [hf]

/-- Claim C7 (code bug, evaluated at the failing input): the claim says
decoding a GET response is total and returns a classified `DecodeError` on
empty or garbled input; but on the empty line the v2 decoder's `[-1]`
indexing raises an uncaught `IndexError` (no `DecodeError` classification
exists anywhere in the source). -/
theorem empty_get_response_raises_index_error :
    PortentaClient.read_decode "" = Except.error PyErr.indexError := rfl

/-- Counterexample for claim C8: the claim lists "TRUE" among the strings
that map to 0, but the v2 coercion is genuinely case-insensitive —
`"TRUE".lower()` is `"true"`, which is in the accept set — so "TRUE" maps
to 1. -/
theorem coerce_str_TRUE_counterexample : coerce_str_v2 "TRUE" = 1 := by decide

/-- Claim C8 (amended): the v2 Write Gateway coercion is case-insensitive:
a string maps to 1 iff its lowercasing is "on", "1" or "true" (so "TRUE"
and "True" map to 1), every other string (e.g. "On " with its trailing
space, "off") maps to 0, and any two strings with equal lowercasings
coerce identically. -/
theorem coerce_str_case_insensitive (s t : String) :
    (pyLower s = "on" ∨ pyLower s = "1" ∨ pyLower s = "true" → coerce_str_v2 s = 1) ∧
      (¬(pyLower s = "on" ∨ pyLower s = "1" ∨ pyLower s = "true") → coerce_str_v2 s = 0) ∧
      (pyLower s = pyLower t → coerce_str_v2 s = coerce_str_v2 t) := by
  unfold coerce_str_v2
  exact ⟨fun h => by rw [if_pos h], fun h => by rw [if_neg h], fun h => by rw [h]⟩

/-- Witness for C8: the amended behavior at "TRUE" (maps to 1), "On "
(maps to 0) and the case-insensitive pair ("TRUE", "true"). -/
theorem coerce_str_case_insensitive_witness :
    coerce_str_v2 "TRUE" = 1 ∧ coerce_str_v2 "On " = 0 ∧
      coerce_str_v2 "TRUE" = coerce_str_v2 "true" :=
  ⟨(coerce_str_case_insensitive "TRUE" "TRUE").1 (by decide),
    (coerce_str_case_insensitive "On " "On ").2.1 (by decide),
    (coerce_str_case_insensitive "TRUE" "true").2.2 (by decide)⟩

/-- Counterexample for claim C9: a Python boolean `True` written to
boolean channel DO 3 is not an `str` instance, so the coercion does not
fire, and the f-string renders it as the text "True" — the encoded request
is "SET DO 3 True\n", not "SET DO 3 1\n". -/
theorem set_message_python_bool_counterexample :
    buildSetMessage "DO" 3 (PyVal.pbool true) = "SET DO 3 True\n" := by decide

/-- Helper: folding the literal " 1\n" tail of a SET line. -/
theorem string_append_one (x : String) : x ++ " " ++ "1" ++ "\n" = x ++ " 1\n" := by
  rw [String.append_assoc, String.append_assoc]; rfl

/-- Helper: folding the literal " 0\n" tail of a SET line. -/
theorem string_append_zero (x : String) : x ++ " " ++ "0" ++ "\n" = x ++ " 0\n" := by
  rw [String.append_assoc, String.append_assoc]; rfl

/-- Claim C9 (amended): for every bus and pin, a string input is coerced
and rendered so that the encoded request is exactly
`"SET {bus} {pin} 1\n"` or `"SET {bus} {pin} 0\n"`, and the integer inputs
1 and 0 render as "1" and "0"; only a raw Python boolean escapes this and
renders as "True"/"False" (see the counterexample). -/
theorem set_message_binary_for_str_and_int (bus : String) (pin : Nat) (s : String) :
    (buildSetMessage bus pin (PyVal.pstr s) = "SET " ++ bus ++ " " ++ toString pin ++ " 1\n" ∨
      buildSetMessage bus pin (PyVal.pstr s) = "SET " ++ bus ++ " " ++ toString pin ++ " 0\n") ∧
    buildSetMessage bus pin (PyVal.pint 1) = "SET " ++ bus ++ " " ++ toString pin ++ " 1\n" ∧
    buildSetMessage bus pin (PyVal.pint 0) = "SET " ++ bus ++ " " ++ toString pin ++ " 0\n" := by
  have hb : buildSetMessage bus pin (PyVal.pstr s) =
      "SET " ++ bus ++ " " ++ toString pin ++ " " ++
        toString (Int.ofNat (coerce_str_v2 s)) ++ "\n" := rfl
  refine ⟨?_, ?_, ?_⟩
  · by_cases h : pyLower s = "on" ∨ pyLower s = "1" ∨ pyLower s = "true"
    · left
      have h1 : coerce_str_v2 s = 1 := by unfold coerce_str_v2; rw [if_pos h]
      rw [hb, h1, show toString (Int.ofNat 1) = "1" from rfl]
      exact string_append_one ("SET " ++ bus ++ " " ++ toString pin)
    · right
      have h0 : coerce_str_v2 s = 0 := by unfold coerce_str_v2; rw [if_neg h]
      rw [hb, h0, show toString (Int.ofNat 0) = "0" from rfl]
      exact string_append_zero ("SET " ++ bus ++ " " ++ toString pin)
  · show "SET " ++ bus ++ " " ++ toString pin ++ " " ++ toString (1 : Int) ++ "\n" = _
    rw [show toString (1 : Int) = "1" from rfl]
    exact string_append_one ("SET " ++ bus ++ " " ++ toString pin)
  · show "SET " ++ bus ++ " " ++ toString pin ++ " " ++ toString (0 : Int) ++ "\n" = _
    rw [show toString (0 : Int) = "0" from rfl]
    exact string_append_zero ("SET " ++ bus ++ " " ++ toString pin)

/-- Helper: a strict decimal octet is parsed by the `inet_aton` field
parser as its decimal value, which is below 256. -/
theorem parsePart_decOctet (cs : List Char) (h : isDecOctet cs = true) :
    parsePart cs = some (decVal cs) ∧ decVal cs ≤ 255 := by
  unfold isDecOctet at h
  simp only [Bool.and_eq_true, Bool.or_eq_true, beq_iff_eq, bne_iff_ne, List.all_eq_true,
    decide_eq_true_eq, Bool.not_eq_true'] at h
  obtain ⟨⟨⟨hne, hdig⟩, hlead⟩, hle⟩ := h
  refine ⟨?_, hle⟩
  cases cs with
  | nil => simp at hne
  | cons c rest =>
    by_cases hc : c = '0'
    · subst hc
      have hrest : rest = [] := by
        rcases hlead with hlen | hhd
        · cases rest with
          | nil => rfl
          | cons x xs => simp at hlen
        · simp at hhd
      subst hrest
      decide
    · show (if c = '0' then parsePartLeadingZero rest else parseDec (c :: rest)) =
        some (decVal (c :: rest))
      rw [if_neg hc]
      unfold parseDec
      have hcond : (!(c :: rest).isEmpty && (c :: rest).all Char.isDigit) = true := by
        simp only [List.isEmpty_cons, Bool.not_false, Bool.true_and, List.all_eq_true]
        exact hdig
      rw [if_pos hcond]

/-- Helper: four strict decimal octets pass the `inet_aton` range checks. -/
theorem atonCheck_quad (p1 p2 p3 p4 : List Char)
    (h1 : isDecOctet p1 = true) (h2 : isDecOctet p2 = true)
    (h3 : isDecOctet p3 = true) (h4 : isDecOctet p4 = true) :
    atonCheck [p1, p2, p3, p4] = true := by
  obtain ⟨e1, l1⟩ := parsePart_decOctet p1 h1
  obtain ⟨e2, l2⟩ := parsePart_decOctet p2 h2
  obtain ⟨e3, l3⟩ := parsePart_decOctet p3 h3
  obtain ⟨e4, l4⟩ := parsePart_decOctet p4 h4
  simp only [atonCheck, e1, e2, e3, e4, Bool.and_eq_true, decide_eq_true_eq]
  exact ⟨⟨⟨by omega, by omega⟩, by omega⟩, by omega⟩

/-- Helper: every valid dotted-quad IPv4 address is accepted by
`inet_aton`. -/
theorem dotted_implies_aton (s : String) (h : isDottedIPv4 s = true) :
    inet_aton_ok s = true := by
  unfold isDottedIPv4 at h
  simp only [Bool.and_eq_true, beq_iff_eq, List.all_eq_true] at h
  obtain ⟨hlen, hall⟩ := h
  unfold inet_aton_ok
  rcases hps : splitChL '.' s.toList with _ | ⟨p1, _ | ⟨p2, _ | ⟨p3, _ | ⟨p4, _ | ⟨p5, rest⟩⟩⟩⟩⟩ <;>
    rw [hps] at hlen hall <;> simp at hlen
  exact atonCheck_quad p1 p2 p3 p4 (hall p1 (by simp)) (hall p2 (by simp))
    (hall p3 (by simp)) (hall p4 (by simp))

/-- Counterexample for claim C10: the host string "1" is not a valid
dotted IPv4 address, yet construction succeeds, because `inet_aton`
accepts the legacy single-number form — so "construction raises a
ValueError for every host string that is not a valid dotted IPv4 address"
is false. -/
theorem inet_aton_accepts_non_dotted :
    isDottedIPv4 "1" = false ∧
      mkPortentaIOC "1" 502 = Except.ok { host := "1", port := 502 } := by
  constructor
  · decide
  · rfl

/-- Claim C10 (amended): construction succeeds exactly when the host is
accepted by `inet_aton` and the port is within 0..65535, storing exactly
the given values (after the `str`/`int` converters); every port outside
0..65535 and every `inet_aton`-rejected host raises `ValueError`.
`inet_aton` accepts every valid dotted-quad IPv4 address, but also legacy
shorthand numeric forms, so rejection is not equivalent to "not a valid
dotted IPv4 address". -/
theorem construction_validates_endpoint :
    (∀ (h : String) (p : Int) (cfg : PortentaIOCConfig),
        mkPortentaIOC h p = Except.ok cfg ↔
          (inet_aton_ok h = true ∧ 0 ≤ p ∧ p ≤ 65535 ∧ cfg = { host := h, port := p })) ∧
      (∀ s : String, isDottedIPv4 s = true → inet_aton_ok s = true) := by
  constructor
  · intro h p cfg
    unfold mkPortentaIOC validate_ip_address validate_port_number
    by_cases hip : inet_aton_ok h = true
    · by_cases hp : 0 ≤ p ∧ p ≤ 65535
      · simp [hip, hp, hp.1, hp.2, eq_comm]
      · rw [if_pos hip, if_neg hp]
        constructor
        · intro hcontra
          exact Except.noConfusion hcontra
        · rintro ⟨-, hp1, hp2, -⟩
          exact absurd ⟨hp1, hp2⟩ hp
    · rw [if_neg hip]
      constructor
      · intro hcontra
        exact Except.noConfusion hcontra
      · rintro ⟨hip2, -⟩
        exact absurd hip2 hip
  · exact dotted_implies_aton

/-- Witness for C10: the v1 default endpoint 192.168.2.114:502 is a valid
dotted quad and constructs successfully, via the theorem. -/
theorem construction_validates_endpoint_witness :
    inet_aton_ok "192.168.2.114" = true ∧
      mkPortentaIOC "192.168.2.114" 502 =
        Except.ok { host := "192.168.2.114", port := 502 } := by
  constructor
  · exact construction_validates_endpoint.2 "192.168.2.114" (by decide)
  · exact (construction_validates_endpoint.1 "192.168.2.114" 502
      { host := "192.168.2.114", port := 502 }).mpr
      ⟨construction_validates_endpoint.2 "192.168.2.114" (by decide), by decide, by decide, rfl⟩
